import Mathlib

/-!
Shallow embedding of the kLogger repository (header-only C++ logging
library).  The canonical revision is src/include/KL/Logger.h; the older
revisions src/include/Logger.h and src/include/KLogger.h are embedded
where they diverge (dispatch policy, init guard).

Modelling conventions:
* machine integers (size_t counters) are Nat; the counters involved never
  approach overflow in the properties considered;
* the std::ofstream and the filesystem are modelled by an explicit trace:
  the open file is an optional list of its lines (most recent line first),
  rotated-out files are kept in a list (most recent file first);
* fallible environment steps (localtime_r failing, ofstream::open failing)
  are Bool parameters; a C++ throw is an Except.error;
* the calendar rendering done by std::put_time is abstracted to the decimal
  rendering of the stored tick count (no claim constrains its text);
* the mutex serialises producers, so queue operations are modelled as pure
  list operations applied in the order the critical sections completed.
-/

namespace KLogger

/-- Severity levels, from src/include/KLogger.h (enum class Level). -/
inductive Level where
  | INFO
  | WARNING
  | ERROR
deriving DecidableEq, Repr

/-- One queued log message, from src/include/LogEntry.h.  The
system_clock time_point is modelled as a Nat tick count. -/
structure LogEntry where
  writeToFile : Bool
  timeStamp : Nat
  level : Level
  msg : String
deriving DecidableEq, Repr

/- ANSI escape codes, from src/include/KL/Color.h. -/
namespace Color

def RED : String := "\x1b[31m"

def GREEN : String := "\x1b[32m"

def YELLOW : String := "\x1b[33m"

def RESET : String := "\x1b[0m"

end Color

/-- Logger::level_to_string, src/include/KL/Logger.h. -/
def level_to_string : Level → String
  | Level.INFO => "INFO"
  | Level.WARNING => "WARNING"
  | Level.ERROR => "ERROR"

/-- Logger::get_color_code, src/include/KL/Logger.h. -/
def get_color_code : Level → String
  | Level.INFO => Color.GREEN
  | Level.WARNING => Color.YELLOW
  | Level.ERROR => Color.RED

/-- Logger::get_time_stamp_for_log, src/include/KL/Logger.h.  localtime_r
can fail, in which case the function THROWS std::runtime_error (modelled
as Except.error); success of localtime_r is the tsOk parameter.  The
put_time calendar rendering is abstracted to the decimal tick count. -/
def get_time_stamp_for_log (tsOk : Bool) (e : LogEntry) : Except String String :=
  if tsOk then Except.ok (toString e.timeStamp)
  else Except.error "localtime_r failed"

/-- Logger::get_formatted_message, src/include/KL/Logger.h:
"[" timestamp "][" level "][" msg "]".  The timestamp lookup can throw. -/
def get_formatted_message (tsOk : Bool) (e : LogEntry) : Except String String :=
  match get_time_stamp_for_log tsOk e with
  | Except.error s => Except.error s
  | Except.ok ts =>
      Except.ok ("[" ++ ts ++ "]" ++ "[" ++ level_to_string e.level ++ "]"
        ++ "[" ++ e.msg ++ "]")

/-- The formatted line when localtime succeeds (pure view of
get_formatted_message on the success path). -/
def fmt (e : LogEntry) : String :=
  "[" ++ toString e.timeStamp ++ "]" ++ "[" ++ level_to_string e.level ++ "]"
    ++ "[" ++ e.msg ++ "]"

/-- The two standard streams used by write_to_terminal. -/
inductive Stream where
  | stdout
  | stderr
deriving DecidableEq, Repr

/-- One console emission: which stream and the exact text sent to it. -/
structure TermWrite where
  stream : Stream
  text : String
deriving DecidableEq, Repr

/-- Logger::write_to_terminal, src/include/KL/Logger.h: colored message is
colorCode + msg + RESET + newline; ERROR goes to cerr, the rest to cout. -/
def write_to_terminal (level : Level) (msg : String) : TermWrite :=
  { stream := if level = Level.ERROR then Stream.stderr else Stream.stdout
    text := get_color_code level ++ msg ++ Color.RESET ++ "\n" }

/-- RotationState of the file sink (the mFileStream / mCurrentLineCount /
mMaxLines members of Logger, src/include/KL/Logger.h), with an explicit
trace of file contents.  `current` is the open file's lines (most recent
first), `none` meaning no file is open (mFileStream.is_open() false);
`closed` are the rotated-out files, most recent first. -/
structure FS where
  current : Option (List String)
  count : Nat
  max : Nat
  closed : List (List String)
deriving DecidableEq, Repr

/-- mFileStream.is_open(). -/
def FS.isOpen (s : FS) : Bool := s.current.isSome

/-- The sink before any file activity: nothing open, zero lines written. -/
def initFS (max : Nat) : FS :=
  { current := none, count := 0, max := max, closed := [] }

/-- Logger::create_new_file, src/include/KL/Logger.h.  Closes the current
file if open, builds a timestamped name (get_time_stamp_for_now can throw,
caught by the catch block: tsOk models its success), opens the new file
(openOk models ofstream::open succeeding), and sets mCurrentLineCount = 0.
The reset is NOT guarded by open success: it runs whenever the open was
attempted, i.e. whenever the timestamp step did not throw. -/
def create_new_file (tsOk openOk : Bool) (s : FS) : FS :=
  let closedNow := match s.current with
    | some f => f :: s.closed
    | none => s.closed
  if tsOk then
    { s with current := if openOk then some [] else none
             count := 0
             closed := closedNow }
  else
    { s with current := none, closed := closedNow }

/-- The rotation predicate of Logger::write_to_file:
(false == mFileStream.is_open()) || mCurrentLineCount >= mMaxLines. -/
def needNewFile (s : FS) : Bool :=
  !s.isOpen || decide (s.count ≥ s.max)

/-- Logger::write_to_file, src/include/KL/Logger.h: rotate if needed, then
write one line and increment the counter only if a file is open. -/
def write_to_file (tsOk openOk : Bool) (msg : String) (s : FS) : FS :=
  let s1 := if needNewFile s then create_new_file tsOk openOk s else s
  match s1.current with
  | some f => { s1 with current := some (msg :: f), count := s1.count + 1 }
  | none => s1

/-- Total number of lines ever written across all files of the sink. -/
def FS.totalLines (s : FS) : Nat :=
  (s.closed.map List.length).sum +
    (match s.current with | some f => f.length | none => 0)

/-- Number of files created so far (rotated-out plus the open one). -/
def FS.fileCount (s : FS) : Nat :=
  s.closed.length + (if s.current.isSome then 1 else 0)

/-- The file close performed by Logger::shut_down (flush then close): the
open file's lines persist on disk; the counter is not touched. -/
def FS.close (s : FS) : FS :=
  match s.current with
  | some f => { s with current := none, closed := f :: s.closed }
  | none => s

/-- Consumer-side work state: the sink the consumer owns exclusively,
plus the trace of console writes in emission order. -/
structure WorkState where
  sink : FS
  console : List TermWrite
deriving DecidableEq, Repr

/-- Body of the inner while loop of Logger::process_queue,
src/include/KL/Logger.h: format the entry (this can throw, and the loop
body has no handler, so the error propagates out), write to the file iff
writeToFile is set, then always write to the terminal. -/
def dispatch_entry (tsOk openOk : Bool) (e : LogEntry) (st : WorkState) :
    Except String WorkState :=
  match get_formatted_message tsOk e with
  | Except.error s => Except.error s
  | Except.ok formattedMessage =>
      let sink := if e.writeToFile
        then write_to_file tsOk openOk formattedMessage st.sink
        else st.sink
      Except.ok { sink := sink
                  console := st.console ++ [write_to_terminal e.level formattedMessage] }

/-- The inner while loop of process_queue: the drained batch is consumed
front to back; an escaping exception aborts the whole loop. -/
def process_batch (tsOk openOk : Bool) :
    List LogEntry → WorkState → Except String WorkState
  | [], st => Except.ok st
  | e :: rest, st =>
      match dispatch_entry tsOk openOk e st with
      | Except.error s => Except.error s
      | Except.ok st2 => process_batch tsOk openOk rest st2

/-- The break test of process_queue: shouldWorkerThreadWork =
(!mIsRunning && mLogEntryQueue.empty()). -/
def should_stop (isRunning : Bool) (queue : List LogEntry) : Bool :=
  !isRunning && queue.isEmpty

/-- The outer while (true) loop of process_queue, with fuel, in the
regime where producers are quiescent (no entries are pushed between
iterations — the post-shutdown situation).  Each iteration: the
condition-variable wait passes once the queue is non-empty or mIsRunning
is false; break iff should_stop; otherwise swap the queue out (leaving it
empty) and process the swapped batch.  Result: ok (some st) means the
loop broke in state st; ok none means fuel ran out with the loop still
going; error means an exception escaped the loop body. -/
def process_queue_fuel (tsOk openOk : Bool) :
    Nat → Bool → List LogEntry → WorkState → Except String (Option WorkState)
  | 0, _, _, _ => Except.ok none
  | fuel + 1, isRunning, queue, st =>
      if should_stop isRunning queue then Except.ok (some st)
      else
        match process_batch tsOk openOk queue st with
        | Except.error s => Except.error s
        | Except.ok st2 => process_queue_fuel tsOk openOk fuel isRunning [] st2

/-- Work state before any dispatch, with the default line cap. -/
def initWork : WorkState := { sink := initFS 100000, console := [] }

/-- Logger::shut_down sets mIsRunning to false, wakes the worker and
joins it: the worker finishes process_queue with no further producers.
Fuel 2 covers the run: one iteration drains the queue, the next observes
the stop signal with the queue empty. -/
def run_after_shutdown (tsOk openOk : Bool) (q : List LogEntry) :
    Except String (Option WorkState) :=
  process_queue_fuel tsOk openOk 2 false q initWork

/-- Console trace of one dispatch result ([] when the dispatch threw). -/
def consoleOfD : Except String WorkState → List TermWrite
  | Except.ok st => st.console
  | Except.error _ => []

/-- Cumulative file lines of one dispatch result (0 when it threw). -/
def fileLinesOfD : Except String WorkState → Nat
  | Except.ok st => st.sink.totalLines
  | Except.error _ => 0

/-- Whether the modelled loop run ended by breaking out of the loop. -/
def loopTerminated (r : Except String (Option WorkState)) : Bool :=
  match r with
  | Except.ok (some _) => true
  | _ => false

/-- Console trace of a finished loop run. -/
def consoleOf (r : Except String (Option WorkState)) : List TermWrite :=
  match r with
  | Except.ok (some st) => st.console
  | _ => []

/-- Total file lines of a finished loop run. -/
def fileLinesOf (r : Except String (Option WorkState)) : Nat :=
  match r with
  | Except.ok (some st) => st.sink.totalLines
  | _ => 0

/-- LoggerFacade state, src/include/KL/Logger.h members: mIsInitialized,
mIsRunning, mLogDirectory, the rotation members (inside `sink`: mMaxLines
is sink.max, mCurrentLineCount is sink.count, mFileStream is
sink.current), and a count of std::thread spawns. -/
structure FacadeState where
  isInitialized : Bool
  isRunning : Bool
  logDirectory : String
  sink : FS
  workersStarted : Nat
deriving DecidableEq, Repr

/-- The freshly constructed Logger: mCurrentLineCount(0),
mMaxLines(100000), mIsInitialized(false), mIsRunning(false); no file
open, no worker yet. -/
def mkLogger : FacadeState :=
  { isInitialized := false, isRunning := false, logDirectory := ""
    sink := initFS 100000, workersStarted := 0 }

/-- Logger::init, src/include/KL/Logger.h: under the lock, return at once
if already initialized; otherwise store mMaxLines, resolve the directory
(current path when the argument is empty; directory creation is a
filesystem side effect outside the state), set the flags and start the
worker thread. -/
def init (folderPath : String) (maxLinesPerFile : Nat) (currentPath : String)
    (s : FacadeState) : FacadeState :=
  if s.isInitialized then s
  else
    { s with sink := { s.sink with max := maxLinesPerFile }
             logDirectory := if folderPath = "" then currentPath else folderPath
             isInitialized := true
             isRunning := true
             workersStarted := s.workersStarted + 1 }

/- ===== Older revision: src/include/Logger.h ===== -/

/-- Body of the inner while loop of process_queue in the OLDER revision
src/include/Logger.h: the entry's msg (formatted at log() time in that
revision) goes to the file WHEN writeToFile is set, ELSE to the terminal
— the two sinks are mutually exclusive there.  (That revision's
write_to_terminal also appends a literal "/n"; only which sink is reached
matters here, so the KL terminal writer is reused.) -/
def legacy_dispatch_entry (tsOk openOk : Bool) (e : LogEntry) (st : WorkState) :
    WorkState :=
  if e.writeToFile then
    { st with sink := write_to_file tsOk openOk e.msg st.sink }
  else
    { st with console := st.console ++ [write_to_terminal e.level e.msg] }

/- ===== Earliest revision: src/include/KLogger.h ===== -/

/-- Configuration state of the earliest revision src/include/KLogger.h
(no worker thread exists in that revision). -/
structure KFacade where
  isInitialized : Bool
  logDirectory : String
  maxLines : Nat
deriving DecidableEq, Repr

/-- init of src/include/KLogger.h: NO mIsInitialized guard — every call
re-applies mMaxLines and the directory. -/
def klogger_init (folderPath : String) (maxLinesPerFile : Nat)
    (currentPath : String) (s : KFacade) : KFacade :=
  { s with maxLines := maxLinesPerFile
           logDirectory := if folderPath = "" then currentPath else folderPath
           isInitialized := true }

/- ===== Queue order (Logger::log and the queue swap) ===== -/

/-- One serialised critical-section event on mLogEntryQueue: a producer's
push (Logger::log) or the consumer's whole-queue swap (process_queue). -/
inductive QOp where
  | enq (e : LogEntry)
  | drain
deriving Repr

/-- Queue-order state: the pending queue and the entries dispatched so
far, in dispatch order. -/
structure QState where
  queue : List LogEntry
  dispatched : List LogEntry
deriving DecidableEq, Repr

/-- The inner while loop of process_queue viewed on entry order: the
swapped-out local queue is consumed front to back (front then pop). -/
def drain_order : List LogEntry → List LogEntry → List LogEntry
  | [], acc => acc
  | e :: rest, acc => drain_order rest (acc ++ [e])

/-- Apply a serialised trace of queue events: log pushes at the back;
drain swaps the whole queue out and dispatches it front to back. -/
def runOps : List QOp → QState → QState
  | [], st => st
  | QOp.enq e :: ops, st => runOps ops { st with queue := st.queue ++ [e] }
  | QOp.drain :: ops, st =>
      runOps ops { queue := [], dispatched := drain_order st.queue st.dispatched }

/-- The entries enqueued by a trace, in critical-section order. -/
def enqueuedOf : List QOp → List LogEntry
  | [] => []
  | QOp.enq e :: ops => e :: enqueuedOf ops
  | QOp.drain :: ops => enqueuedOf ops

/-- Writes n lines through write_to_file with every environment step
succeeding; write number i carries message msgs i. -/
def writeN (msgs : Nat → String) : Nat → FS → FS
  | 0, s => s
  | n + 1, s => write_to_file true true (msgs n) (writeN msgs n s)

/-! ## Helper lemmas -/

/-- write_to_file never changes the configured line cap. -/
theorem write_to_file_max (tsOk openOk : Bool) (msg : String) (s : FS) :
    (write_to_file tsOk openOk msg s).max = s.max := by
  unfold write_to_file create_new_file
  by_cases h : needNewFile s = true <;>
    · simp only [h, if_true, if_false, Bool.false_eq_true]
      cases tsOk <;> cases openOk <;> cases s.current <;> simp

/-- A non-rotating write keeps the filed lines and appends to the open
file. -/
theorem write_to_file_no_rot (tsOk openOk : Bool) (msg : String) (s : FS)
    (f : List String) (hf : s.current = some f) (h : needNewFile s = false) :
    write_to_file tsOk openOk msg s =
      { s with current := some (msg :: f), count := s.count + 1 } := by
  unfold write_to_file
  simp [h, hf]

/-- A state that does not need rotation has an open file. -/
theorem current_of_no_rot (s : FS) (h : needNewFile s = false) :
    ∃ f, s.current = some f := by
  unfold needNewFile FS.isOpen at h
  cases hc : s.current
  · rw [hc] at h; simp at h
  · exact ⟨_, rfl⟩

/-- With a succeeding environment, one write adds exactly one line to the
sink's cumulative line total. -/
theorem totalLines_write_ok (msg : String) (s : FS) :
    (write_to_file true true msg s).totalLines = s.totalLines + 1 := by
  by_cases h : needNewFile s = true
  · unfold write_to_file create_new_file FS.totalLines
    simp only [h, if_true]
    cases hc : s.current <;> simp [hc] <;> omega
  · obtain ⟨f, hf⟩ := current_of_no_rot s (by simpa using h)
    rw [write_to_file_no_rot true true msg s f hf (by simpa using h)]
    unfold FS.totalLines
    simp [hf]
    omega

/-- With a succeeding environment, dispatching one entry of the canonical
revision succeeds and yields the formatted line on the console plus a
conditional file write. -/
theorem dispatch_entry_ok (e : LogEntry) (st : WorkState) :
    dispatch_entry true true e st = Except.ok
      { sink := if e.writeToFile
          then write_to_file true true (fmt e) st.sink else st.sink
        console := st.console ++ [write_to_terminal e.level (fmt e)] } := by
  unfold dispatch_entry get_formatted_message get_time_stamp_for_log fmt
  simp

/-- Batch processing under a succeeding environment: succeeds, the console
receives every entry's formatted line in order, and the file gains one
line per persist entry. -/
theorem process_batch_ok (q : List LogEntry) : ∀ st : WorkState,
    ∃ st2, process_batch true true q st = Except.ok st2
      ∧ st2.console = st.console ++ q.map (fun e => write_to_terminal e.level (fmt e))
      ∧ st2.sink.totalLines
          = st.sink.totalLines + (q.filter (fun e => e.writeToFile)).length := by
  induction q with
  | nil => intro st; exact ⟨st, rfl, by simp, by simp⟩
  | cons e rest ih =>
      intro st
      obtain ⟨st2, h1, h2, h3⟩ := ih
        { sink := if e.writeToFile
            then write_to_file true true (fmt e) st.sink else st.sink
          console := st.console ++ [write_to_terminal e.level (fmt e)] }
      refine ⟨st2, ?_, ?_, ?_⟩
      · unfold process_batch
        rw [dispatch_entry_ok]
        exact h1
      · rw [h2]; simp
      · rw [h3]
        by_cases hw : e.writeToFile = true <;>
          simp [hw, totalLines_write_ok] <;> omega

/-- drain_order is accumulator-append. -/
theorem drain_order_append (l : List LogEntry) : ∀ acc,
    drain_order l acc = acc ++ l := by
  induction l with
  | nil => intro acc; simp [drain_order]
  | cons e rest ih => intro acc; simp [drain_order, ih]

/-- Over any serialised trace of queue events, dispatched-then-pending
entries equal start-state entries followed by the trace's enqueues. -/
theorem runOps_order (ops : List QOp) : ∀ st : QState,
    (runOps ops st).dispatched ++ (runOps ops st).queue
      = st.dispatched ++ st.queue ++ enqueuedOf ops := by
  induction ops with
  | nil => intro st; simp [runOps, enqueuedOf]
  | cons op rest ih =>
      intro st
      cases op with
      | enq e => rw [runOps, ih, enqueuedOf]; simp
      | drain => rw [runOps, ih, enqueuedOf]; simp [drain_order_append]

/-- A rotating write with a succeeding environment: the old file (if any)
moves to the closed list, the new file holds exactly the new line, and
the counter reads 1. -/
theorem write_to_file_rot_ok (msg : String) (s : FS) (h : needNewFile s = true) :
    write_to_file true true msg s =
      { current := some [msg], count := 1, max := s.max
        closed := match s.current with
                  | some f => f :: s.closed
                  | none => s.closed } := by
  unfold write_to_file create_new_file
  simp [h]

/-- Line-count shape of the sink after n ≥ 1 writes with max ≥ 1 and a
fully succeeding environment: the open file and the counter hold
(n-1) % max + 1 lines and the rotated-out files all hold max lines, with
(n-1) / max of them. -/
theorem writeN_spec (msgs : Nat → String) (max : Nat) (hmax : 1 ≤ max) :
    ∀ n, 1 ≤ n →
      (writeN msgs n (initFS max)).current.map List.length
          = some ((n - 1) % max + 1)
      ∧ (writeN msgs n (initFS max)).count = (n - 1) % max + 1
      ∧ (writeN msgs n (initFS max)).closed.map List.length
          = List.replicate ((n - 1) / max) max
      ∧ (writeN msgs n (initFS max)).max = max := by
  intro n hn
  induction n, hn using Nat.le_induction with
  | base =>
      have h1 : needNewFile (initFS max) = true := rfl
      have hw : writeN msgs 1 (initFS max) =
          { current := some [msgs 0], count := 1, max := max, closed := [] } := by
        show write_to_file true true (msgs 0) (initFS max) = _
        rw [write_to_file_rot_ok (msgs 0) (initFS max) h1]
        rfl
      rw [hw]
      simp
  | succ n hn ih =>
      obtain ⟨hcur, hcount, hclosed, hm⟩ := ih
      cases hc : (writeN msgs n (initFS max)).current with
      | none => rw [hc] at hcur; simp at hcur
      | some f =>
          rw [hc] at hcur
          simp only [Option.map_some', Option.some.injEq] at hcur
          have hrlt : (n - 1) % max < max := Nat.mod_lt _ (by omega)
          have hkey : max * ((n - 1) / max) + (n - 1) % max = n - 1 :=
            Nat.div_add_mod (n - 1) max
          have hn' : n = max * ((n - 1) / max) + ((n - 1) % max + 1) := by
            calc n = (n - 1) + 1 := (Nat.succ_pred_eq_of_pos (by omega)).symm
              _ = (max * ((n - 1) / max) + (n - 1) % max) + 1 := by rw [hkey]
              _ = max * ((n - 1) / max) + ((n - 1) % max + 1) := by
                  rw [Nat.add_assoc]
          have hmod : n % max = ((n - 1) % max + 1) % max := by
            conv_lhs => rw [hn']
            exact Nat.mul_add_mod max _ _
          have hdiv : n / max = (n - 1) / max + ((n - 1) % max + 1) / max := by
            conv_lhs => rw [hn']
            exact Nat.mul_add_div (by omega) _ _
          by_cases hcase : (n - 1) % max + 1 < max
          · -- no rotation: the open file is below the cap
            have hnnf : needNewFile (writeN msgs n (initFS max)) = false := by
              unfold needNewFile FS.isOpen
              rw [hc]
              simp only [Option.isSome_some, Bool.not_true, Bool.false_or,
                decide_eq_false_iff_not, Nat.not_le]
              omega
            have hmod2 : n % max = (n - 1) % max + 1 := by
              rw [hmod]; exact Nat.mod_eq_of_lt hcase
            have hdiv2 : n / max = (n - 1) / max := by
              rw [hdiv, Nat.div_eq_of_lt hcase, Nat.add_zero]
            have hw : writeN msgs (n + 1) (initFS max) =
                { writeN msgs n (initFS max) with
                    current := some (msgs n :: f)
                    count := (writeN msgs n (initFS max)).count + 1 } := by
              show write_to_file true true (msgs n) (writeN msgs n (initFS max)) = _
              rw [write_to_file_no_rot true true (msgs n) _ f hc hnnf]
            refine ⟨?_, ?_, ?_, ?_⟩
            · rw [hw]; simp [hcur, hmod2]
            · rw [hw]; simp [hcount, hmod2]
            · rw [hw]; simp [hclosed, hdiv2]
            · rw [hw]; exact hm
          · -- the file is full: this write rotates
            have hfull : (n - 1) % max + 1 = max := by omega
            have hnnf : needNewFile (writeN msgs n (initFS max)) = true := by
              unfold needNewFile FS.isOpen
              rw [hc]
              simp only [Option.isSome_some, Bool.not_true, Bool.false_or,
                decide_eq_true_eq]
              omega
            have hmod2 : n % max = 0 := by
              rw [hmod, hfull]; exact Nat.mod_self max
            have hdiv2 : n / max = (n - 1) / max + 1 := by
              rw [hdiv, hfull, Nat.div_self (by omega)]
            have hw : writeN msgs (n + 1) (initFS max) =
                { current := some [msgs n], count := 1
                  max := (writeN msgs n (initFS max)).max
                  closed := f :: (writeN msgs n (initFS max)).closed } := by
              show write_to_file true true (msgs n) (writeN msgs n (initFS max)) = _
              rw [write_to_file_rot_ok (msgs n) _ hnnf, hc]
            refine ⟨?_, ?_, ?_, ?_⟩
            · rw [hw]; simp [hmod2]
            · rw [hw]; simp [hmod2]
            · rw [hw, List.map_cons, hcur, hfull, hclosed]
              conv_rhs => rw [show n + 1 - 1 = n by omega, hdiv2]
              rw [List.replicate_succ]
            · rw [hw]; exact hm

/-- A sink whose line-count shape is known has q + 1 files. -/
theorem fileCount_of_spec (s : FS) (L q m : Nat)
    (hc : s.current.map List.length = some L)
    (hcl : s.closed.map List.length = List.replicate q m) :
    s.fileCount = q + 1 := by
  unfold FS.fileCount
  cases hcc : s.current with
  | none => rw [hcc] at hc; simp at hc
  | some f =>
      have hl : s.closed.length = q := by
        have := congrArg List.length hcl
        simpa using this
      simp [hl]

/-- Shape of the sink after n ≥ 1 writes when the configured cap is 0:
every write finds the counter at or above the cap and rotates, so the
open file holds exactly the last line, the counter reads 1, and each of
the n - 1 rotated-out files holds exactly one line. -/
theorem writeN_max_zero (msgs : Nat → String) : ∀ n, 1 ≤ n →
    (writeN msgs n (initFS 0)).current = some [msgs (n - 1)]
    ∧ (writeN msgs n (initFS 0)).count = 1
    ∧ (writeN msgs n (initFS 0)).closed.map List.length = List.replicate (n - 1) 1
    ∧ (writeN msgs n (initFS 0)).max = 0 := by
  intro n hn
  induction n, hn using Nat.le_induction with
  | base =>
      have h1 : needNewFile (initFS 0) = true := rfl
      have hw : writeN msgs 1 (initFS 0) =
          { current := some [msgs 0], count := 1, max := 0, closed := [] } := by
        show write_to_file true true (msgs 0) (initFS 0) = _
        rw [write_to_file_rot_ok (msgs 0) (initFS 0) h1]
        rfl
      rw [hw]
      simp
  | succ n hn ih =>
      obtain ⟨hcur, hcount, hclosed, hm⟩ := ih
      have hnnf : needNewFile (writeN msgs n (initFS 0)) = true := by
        unfold needNewFile FS.isOpen
        rw [hcur, hm, hcount]
        simp
      have hw : writeN msgs (n + 1) (initFS 0) =
          { current := some [msgs n], count := 1
            max := (writeN msgs n (initFS 0)).max
            closed := [msgs (n - 1)] :: (writeN msgs n (initFS 0)).closed } := by
        show write_to_file true true (msgs n) (writeN msgs n (initFS 0)) = _
        rw [write_to_file_rot_ok (msgs n) _ hnnf, hcur]
      refine ⟨?_, ?_, ?_, ?_⟩
      · rw [hw]; simp
      · rw [hw]
      · rw [hw, List.map_cons, hclosed]
        conv_rhs => rw [show n + 1 - 1 = n by omega, show n = (n - 1) + 1 by omega]
        rw [List.replicate_succ]
        simp
      · rw [hw]; exact hm

/-! ## Claim theorems -/

/-- C6: FIFO delivery.  For every serialised trace of enqueue and
drain-all events starting from the empty queue, the entries dispatched so
far (the concatenation of the drained batches, each consumed front to
back) followed by the still-pending queue equal exactly the sequence of
enqueued entries in the order their critical sections completed; hence
dispatch order is a prefix of enqueue order and no entry is delivered out
of order. -/
theorem fifo_dispatch_order (ops : List QOp) :
    (runOps ops { queue := [], dispatched := [] }).dispatched
      ++ (runOps ops { queue := [], dispatched := [] }).queue
      = enqueuedOf ops := by
  have h := runOps_order ops { queue := [], dispatched := [] }
  simpa using h

/-- C9: for every entry, write_to_terminal wraps the formatted line in
the fixed ANSI color of its level (INFO green, WARNING yellow, ERROR
red), appends the ANSI reset code (and the newline), and directs the text
to standard error exactly for ERROR and to standard output otherwise. -/
theorem console_color_stream (lvl : Level) (msg : String) :
    (write_to_terminal lvl msg).text
      = (match lvl with
         | Level.INFO => "\x1b[32m"
         | Level.WARNING => "\x1b[33m"
         | Level.ERROR => "\x1b[31m") ++ msg ++ "\x1b[0m" ++ "\n"
    ∧ (write_to_terminal lvl msg).stream
      = (match lvl with
         | Level.ERROR => Stream.stderr
         | _ => Stream.stdout) := by
  cases lvl <;> exact ⟨rfl, rfl⟩

/-- C8 counterexample: in the src/include/KLogger.h revision, init has no
initialized-guard, so a second call with different arguments overwrites
the configuration of the first: after init("a", 5) then init("b", 7) the
stored max-lines is 7 and the directory is "b", not the first call's
values — the second call is not a no-op. -/
theorem klogger_init_overwrites_config :
    (klogger_init "b" 7 "/cwd" (klogger_init "a" 5 "/cwd"
        { isInitialized := false, logDirectory := "", maxLines := 100000 })).maxLines = 7
    ∧ (klogger_init "a" 5 "/cwd"
        { isInitialized := false, logDirectory := "", maxLines := 100000 }).maxLines = 5
    ∧ klogger_init "b" 7 "/cwd" (klogger_init "a" 5 "/cwd"
        { isInitialized := false, logDirectory := "", maxLines := 100000 })
      ≠ klogger_init "a" 5 "/cwd"
        { isInitialized := false, logDirectory := "", maxLines := 100000 } := by
  refine ⟨rfl, rfl, ?_⟩
  decide

/-- C8 amended: in the canonical src/include/KL/Logger.h revision, init
is idempotent exactly as claimed: for every pair of argument lists and
every starting state, a second init call after a first one is a complete
no-op — directory, max-lines, flags and the worker-spawn count all stay
as the first call left them.  (The src/include/KLogger.h revision lacks
the guard; see the counterexample.) -/
theorem init_idempotent_kl (fp1 fp2 cp1 cp2 : String) (ml1 ml2 : Nat)
    (s : FacadeState) :
    init fp2 ml2 cp2 (init fp1 ml1 cp1 s) = init fp1 ml1 cp1 s := by
  by_cases h : s.isInitialized = true
  · simp [init, h]
  · simp [init, h]

/-- C1 counterexample: in the src/include/Logger.h revision of
process_queue, a dequeued entry with persist=true is written only to the
file sink and never reaches the console (its console trace stays empty),
contradicting "the formatted line is written to the console sink
unconditionally ... every persist=true entry reaches both sinks". -/
theorem legacy_dispatch_drops_console :
    (legacy_dispatch_entry true true
        { writeToFile := true, timeStamp := 1, level := Level.INFO, msg := "hello" }
        initWork).console = []
    ∧ ({ writeToFile := true, timeStamp := 1, level := Level.INFO,
         msg := "hello" } : LogEntry).writeToFile = true
    ∧ (legacy_dispatch_entry true true
        { writeToFile := true, timeStamp := 1, level := Level.INFO, msg := "hello" }
        initWork).sink.totalLines = 1 := by
  exact ⟨rfl, rfl, rfl⟩

/-- C1 amended: in the canonical src/include/KL/Logger.h consumer loop,
every dequeued entry's formatted line is written to the console sink
unconditionally and one line reaches the rotating file sink iff the
entry's persist flag is true — exactly as claimed.  In the older
src/include/Logger.h revision the two sinks are mutually exclusive: a
persist=true entry goes only to the file (the console trace is
unchanged), a persist=false entry only to the console. -/
theorem dispatch_policy_per_revision (e : LogEntry) (st : WorkState) :
    dispatch_entry true true e st = Except.ok
      { sink := if e.writeToFile
          then write_to_file true true (fmt e) st.sink else st.sink
        console := st.console ++ [write_to_terminal e.level (fmt e)] }
    ∧ fileLinesOfD (dispatch_entry true true e st)
        = st.sink.totalLines + (if e.writeToFile then 1 else 0)
    ∧ (legacy_dispatch_entry true true e st).console
        = (if e.writeToFile then st.console
           else st.console ++ [write_to_terminal e.level e.msg])
    ∧ (legacy_dispatch_entry true true e st).sink.totalLines
        = st.sink.totalLines + (if e.writeToFile then 1 else 0) := by
  refine ⟨dispatch_entry_ok e st, ?_, ?_, ?_⟩
  · rw [dispatch_entry_ok]
    by_cases hw : e.writeToFile = true <;>
      simp [hw, totalLines_write_ok, fileLinesOfD]
  · by_cases hw : e.writeToFile = true <;> simp [legacy_dispatch_entry, hw]
  · by_cases hw : e.writeToFile = true <;>
      simp [legacy_dispatch_entry, hw, totalLines_write_ok]

/-- C5 counterexample: from an open file with one line and a cap of one,
a write whose rotation hits a failed open leaves the sink with NO file
open, yet the line counter has been reset from 1 to 0 — create_new_file
runs mCurrentLineCount = 0 after the open attempt whether or not the open
succeeded, contradicting "reset ... exactly when a new file is
successfully opened ... it is reset on no other occasion, including a
failed open". -/
theorem counter_reset_despite_failed_open :
    (write_to_file true false "b"
        { current := some ["a"], count := 1, max := 1, closed := [] }).count = 0
    ∧ (write_to_file true false "b"
        { current := some ["a"], count := 1, max := 1, closed := [] }).current = none
    ∧ ({ current := some ["a"], count := 1, max := 1, closed := [] } : FS).count = 1 := by
  exact ⟨rfl, rfl, rfl⟩

/-- C5 amended: the line counter is reset to 0 exactly when a new-file
open is attempted (create_new_file past its timestamp step), whether or
not the open succeeds; on no other occasion — a non-rotating write
increments it and the shutdown close leaves it alone; and a file is
opened lazily: init touches neither the stream nor the files, the fresh
sink has nothing open, and the rotation predicate makes the first write
open a file. -/
theorem counter_reset_policy (tsOk ok : Bool) (msg fp cp : String) (ml : Nat)
    (s : FS) (fs : FacadeState) (h : needNewFile s = false) :
    (create_new_file true ok s).count = 0
    ∧ (write_to_file tsOk ok msg s).count = s.count + 1
    ∧ (FS.close s).count = s.count
    ∧ (init fp ml cp fs).sink.current = fs.sink.current
    ∧ (init fp ml cp fs).sink.closed = fs.sink.closed
    ∧ (initFS ml).current = none
    ∧ needNewFile (initFS ml) = true := by
  refine ⟨?_, ?_, ?_, ?_, ?_, rfl, rfl⟩
  · unfold create_new_file; simp
  · obtain ⟨f, hf⟩ := current_of_no_rot s h
    rw [write_to_file_no_rot tsOk ok msg s f hf h]
  · cases hc : s.current <;> simp [FS.close, hc]
  · by_cases hi : fs.isInitialized = true <;> simp [init, hi]
  · by_cases hi : fs.isInitialized = true <;> simp [init, hi]

/-- C5 witness: the amended statement at a concrete non-rotating state. -/
theorem counter_reset_policy_witness :
    (create_new_file true true
        { current := some ["a"], count := 1, max := 5, closed := [] }).count = 0
    ∧ (write_to_file true true "m"
        { current := some ["a"], count := 1, max := 5, closed := [] }).count = 1 + 1
    ∧ (FS.close { current := some ["a"], count := 1, max := 5, closed := [] }).count = 1
    ∧ (init "d" 7 "/cwd" mkLogger).sink.current = mkLogger.sink.current
    ∧ (init "d" 7 "/cwd" mkLogger).sink.closed = mkLogger.sink.closed
    ∧ (initFS 7).current = none
    ∧ needNewFile (initFS 7) = true :=
  counter_reset_policy true true "m" "d" "/cwd" 7
    { current := some ["a"], count := 1, max := 5, closed := [] } mkLogger (by decide)

/-- C7: when a write needs a new file and the open fails, the write is
dropped (no line is added anywhere), the sink ends with no file open, and
the rotation predicate holds again on the resulting state, so the very
next write attempts a fresh open.  (create_new_file swallows its
exceptions and write_to_file returns normally, so no error reaches the
caller.) -/
theorem failed_open_drops_write (s : FS) (msg : String)
    (h : needNewFile s = true) :
    (write_to_file true false msg s).current = none
    ∧ (write_to_file true false msg s).totalLines = s.totalLines
    ∧ needNewFile (write_to_file true false msg s) = true := by
  unfold write_to_file create_new_file
  simp only [h, if_true]
  cases hc : s.current <;>
    simp [FS.totalLines, needNewFile, FS.isOpen, hc] <;> omega

/-- C7 witness: a failed open at the very first write. -/
theorem failed_open_drops_write_witness :
    (write_to_file true false "m" (initFS 5)).current = none
    ∧ (write_to_file true false "m" (initFS 5)).totalLines = (initFS 5).totalLines
    ∧ needNewFile (write_to_file true false "m" (initFS 5)) = true :=
  failed_open_drops_write (initFS 5) "m" (by decide)

/-- C4 (claim right, code wrong): when localtime_r fails for an entry's
timestamp, get_time_stamp_for_log throws std::runtime_error; the loop
body of process_queue has no handler, so the dispatch of that entry
raises, the rest of the batch is never processed, and the error escapes
the worker loop itself (in C++ an exception escaping the thread function
calls std::terminate) — the loop does not continue with the next entry as
the claim requires. -/
theorem format_failure_escapes_worker :
    dispatch_entry false true
        { writeToFile := false, timeStamp := 1, level := Level.INFO, msg := "a" }
        initWork
      = Except.error "localtime_r failed"
    ∧ process_batch false true
        [ { writeToFile := false, timeStamp := 1, level := Level.INFO, msg := "a" },
          { writeToFile := false, timeStamp := 2, level := Level.WARNING, msg := "b" } ]
        initWork
      = Except.error "localtime_r failed"
    ∧ process_queue_fuel false true 2 true
        [ { writeToFile := false, timeStamp := 1, level := Level.INFO, msg := "a" } ]
        initWork
      = Except.error "localtime_r failed" := by
  exact ⟨rfl, rfl, rfl⟩

/-- C2: the worker loop breaks only when the stop signal is set and the
queue is empty; and with the stop signal set (shut_down), a run of the
loop over the still-queued entries terminates with every entry
dispatched: one console line per entry in order, and one file line per
persist entry. -/
theorem shutdown_drains_all (q : List LogEntry) (r : Bool) (qq : List LogEntry)
    (h : should_stop r qq = true) :
    (r = false ∧ qq = [])
    ∧ loopTerminated (run_after_shutdown true true q) = true
    ∧ consoleOf (run_after_shutdown true true q)
        = q.map (fun e => write_to_terminal e.level (fmt e))
    ∧ fileLinesOf (run_after_shutdown true true q)
        = (q.filter (fun e => e.writeToFile)).length := by
  have hbreak : r = false ∧ qq = [] := by
    unfold should_stop at h
    refine ⟨?_, ?_⟩
    · cases r
      · rfl
      · simp at h
    · cases qq
      · rfl
      · simp at h
  refine ⟨hbreak, ?_⟩
  cases q with
  | nil => exact ⟨rfl, rfl, rfl⟩
  | cons e rest =>
      obtain ⟨st2, h1, h2, h3⟩ := process_batch_ok (e :: rest) initWork
      have hrun : run_after_shutdown true true (e :: rest) = Except.ok (some st2) := by
        unfold run_after_shutdown
        simp only [process_queue_fuel, should_stop, List.isEmpty_cons,
          List.isEmpty_nil, Bool.not_false, Bool.true_and, Bool.and_true,
          Bool.false_eq_true, if_false, if_true, h1]
      refine ⟨?_, ?_, ?_⟩
      · rw [hrun]; rfl
      · show consoleOf (run_after_shutdown true true (e :: rest)) = _
        rw [hrun]
        show st2.console = _
        rw [h2]
        simp [initWork]
      · show fileLinesOf (run_after_shutdown true true (e :: rest)) = _
        rw [hrun]
        show st2.sink.totalLines = _
        rw [h3]
        simp [initWork, initFS, FS.totalLines]

/-- C2 witness: a two-entry queue drained at shutdown. -/
theorem shutdown_drains_all_witness :
    (false = false ∧ ([] : List LogEntry) = [])
    ∧ loopTerminated (run_after_shutdown true true
        [ { writeToFile := true, timeStamp := 1, level := Level.INFO, msg := "a" },
          { writeToFile := false, timeStamp := 2, level := Level.ERROR, msg := "b" } ]) = true
    ∧ consoleOf (run_after_shutdown true true
        [ { writeToFile := true, timeStamp := 1, level := Level.INFO, msg := "a" },
          { writeToFile := false, timeStamp := 2, level := Level.ERROR, msg := "b" } ])
        = ([ { writeToFile := true, timeStamp := 1, level := Level.INFO, msg := "a" },
             { writeToFile := false, timeStamp := 2, level := Level.ERROR, msg := "b" }
           ] : List LogEntry).map (fun e => write_to_terminal e.level (fmt e))
    ∧ fileLinesOf (run_after_shutdown true true
        [ { writeToFile := true, timeStamp := 1, level := Level.INFO, msg := "a" },
          { writeToFile := false, timeStamp := 2, level := Level.ERROR, msg := "b" } ])
        = (([ { writeToFile := true, timeStamp := 1, level := Level.INFO, msg := "a" },
              { writeToFile := false, timeStamp := 2, level := Level.ERROR, msg := "b" }
            ] : List LogEntry).filter (fun e => e.writeToFile)).length :=
  shutdown_drains_all
    [ { writeToFile := true, timeStamp := 1, level := Level.INFO, msg := "a" },
      { writeToFile := false, timeStamp := 2, level := Level.ERROR, msg := "b" } ]
    false [] (by decide)

/-- C3: with a cap max ≥ 1 and all file opens succeeding, after exactly
max writes one file exists and the counter reads max; the next write
opens a second file and the counter reads 1 after it; and after
k·max + r writes with 0 < r < max there are exactly k + 1 files, the last
(open) one holding exactly r lines. -/
theorem rotation_line_counts (msgs : Nat → String) (max k r : Nat)
    (hmax : 1 ≤ max) (hr0 : 0 < r) (hrm : r < max) :
    (writeN msgs max (initFS max)).fileCount = 1
    ∧ (writeN msgs max (initFS max)).count = max
    ∧ (writeN msgs (max + 1) (initFS max)).fileCount = 2
    ∧ (writeN msgs (max + 1) (initFS max)).count = 1
    ∧ (writeN msgs (k * max + r) (initFS max)).fileCount = k + 1
    ∧ (writeN msgs (k * max + r) (initFS max)).current.map List.length = some r
    ∧ (writeN msgs (k * max + r) (initFS max)).count = r := by
  obtain ⟨ha1, ha2, ha3, _⟩ := writeN_spec msgs max hmax max hmax
  obtain ⟨hb1, hb2, hb3, _⟩ := writeN_spec msgs max hmax (max + 1) (by omega)
  obtain ⟨hc1, hc2, hc3, _⟩ := writeN_spec msgs max hmax (k * max + r) (by
    have := Nat.le_add_left r (k * max); omega)
  have e1 : (max - 1) % max = max - 1 := Nat.mod_eq_of_lt (by omega)
  have e2 : (max - 1) / max = 0 := Nat.div_eq_of_lt (by omega)
  have e3 : (max + 1 - 1) % max = 0 := by simp [Nat.mod_self]
  have e4 : (max + 1 - 1) / max = 1 := by
    simp [Nat.div_self (show 0 < max by omega)]
  have e5 : k * max + r - 1 = max * k + (r - 1) := by
    rw [Nat.mul_comm k max]; omega
  have e6 : (k * max + r - 1) % max = r - 1 := by
    rw [e5, Nat.mul_add_mod]; exact Nat.mod_eq_of_lt (by omega)
  have e7 : (k * max + r - 1) / max = k := by
    rw [e5, Nat.mul_add_div (by omega), Nat.div_eq_of_lt (by omega)]
    omega
  refine ⟨?_, ?_, ?_, ?_, ?_, ?_, ?_⟩
  · have hf := fileCount_of_spec _ _ _ _ ha1 ha3
    rw [e2] at hf; simpa using hf
  · rw [ha2, e1]; omega
  · have hf := fileCount_of_spec _ _ _ _ hb1 hb3
    rw [e4] at hf; simpa using hf
  · rw [hb2, e3]
  · have hf := fileCount_of_spec _ _ _ _ hc1 hc3
    rw [e7] at hf; exact hf
  · rw [hc1, e6]
    congr 1
    omega
  · rw [hc2, e6]; omega

/-- C3 witness: cap 2, then 2 writes fill one file and the third write
(k = 1, r = 1) starts file two with one line. -/
theorem rotation_line_counts_witness :
    (writeN (fun _ => "x") 2 (initFS 2)).fileCount = 1
    ∧ (writeN (fun _ => "x") 2 (initFS 2)).count = 2
    ∧ (writeN (fun _ => "x") 3 (initFS 2)).fileCount = 2
    ∧ (writeN (fun _ => "x") 3 (initFS 2)).count = 1
    ∧ (writeN (fun _ => "x") 3 (initFS 2)).fileCount = 2
    ∧ (writeN (fun _ => "x") 3 (initFS 2)).current.map List.length = some 1
    ∧ (writeN (fun _ => "x") 3 (initFS 2)).count = 1 :=
  rotation_line_counts (fun _ => "x") 2 1 1 (by decide) (by decide) (by decide)

/-- C10: init performs no validation of maxLinesPerFile — init(dir, 0)
stores the cap 0 and initializes; with cap 0 every state satisfies the
rotation predicate, so each of n ≥ 1 successful writes opens a fresh
file: the run yields n files, each rotated-out file holding exactly one
line and the open file holding exactly the last line with the counter at
1. -/
theorem max_zero_one_line_files (msgs : Nat → String) (n : Nat)
    (fp cp : String) (s : FS) (hn : 1 ≤ n) (hm : s.max = 0) :
    (init fp 0 cp mkLogger).sink.max = 0
    ∧ (init fp 0 cp mkLogger).isInitialized = true
    ∧ needNewFile s = true
    ∧ (writeN msgs n (initFS 0)).closed.map List.length = List.replicate (n - 1) 1
    ∧ (writeN msgs n (initFS 0)).current = some [msgs (n - 1)]
    ∧ (writeN msgs n (initFS 0)).count = 1
    ∧ (writeN msgs n (initFS 0)).fileCount = n := by
  obtain ⟨h1, h2, h3, _⟩ := writeN_max_zero msgs n hn
  refine ⟨?_, ?_, ?_, h3, h1, h2, ?_⟩
  · simp [init, mkLogger]
  · simp [init, mkLogger]
  · unfold needNewFile
    rw [hm]
    simp
  · have hf := fileCount_of_spec _ 1 (n - 1) 1 (by rw [h1]; rfl) h3
    omega

/-- C10 witness: two writes with cap 0 yield two one-line files. -/
theorem max_zero_one_line_files_witness :
    (init "logs" 0 "/cwd" mkLogger).sink.max = 0
    ∧ (init "logs" 0 "/cwd" mkLogger).isInitialized = true
    ∧ needNewFile (initFS 0) = true
    ∧ (writeN (fun _ => "x") 2 (initFS 0)).closed.map List.length
        = List.replicate 1 1
    ∧ (writeN (fun _ => "x") 2 (initFS 0)).current = some ["x"]
    ∧ (writeN (fun _ => "x") 2 (initFS 0)).count = 1
    ∧ (writeN (fun _ => "x") 2 (initFS 0)).fileCount = 2 :=
  max_zero_one_line_files (fun _ => "x") 2 "logs" "/cwd" (initFS 0)
    (by decide) (by decide)

end KLogger
